import Mathlib

set_option autoImplicit false

/-!
Verification development for a small Express repository exposing two services:
a filesystem-backed file CRUD API (`src/services/fsService.js`) and a user
record CRUD API backed by MongoDB/Mongoose.  The JavaScript source is shallowly
embedded below: the filesystem is an explicit association list from (clean)
file names to string contents, MongoDB is a list of user records, and the
external JSON library (`JSON.parse` / `JSON.stringify(-, null, 2)`) and the
bcrypt hash are passed as explicit function parameters, since they are not part
of the repository.
-/

/-! ### JSON values

`JSON.parse` produces JavaScript values; the repository only inspects them with
`Array.isArray` and re-serializes them.  We model JSON values with numbers
restricted to integers (the spec examples are integer valued; IEEE floats are
out of scope for the embedding). -/

inductive Json where
  | null : Json
  | bool (b : Bool) : Json
  | num (n : Int) : Json
  | str (s : String) : Json
  | arr (elems : List Json) : Json
  | obj (fields : List (String × Json)) : Json

/-- Embedding of `ensureArray` (fsService.js line 112):
`Array.isArray(data) ? data : [data]`. -/
def ensureArray : Json → List Json
  | .arr elems => elems
  | v => [v]

/-! ### String helpers

JavaScript string primitives (`toLowerCase`, `endsWith`, `trim`) are embedded
as character-list functions. -/

/-- Embedding of `String.prototype.toLowerCase` (ASCII range). -/
def jsToLower (s : String) : String :=
  String.mk (s.data.map Char.toLower)

/-- Embedding of `String.prototype.trim`: strip leading and trailing
whitespace. -/
def jsTrim (s : String) : String :=
  String.mk
    (((s.data.dropWhile Char.isWhitespace).reverse.dropWhile
        Char.isWhitespace).reverse)

/-- Embedding of `isJsonFile` (fsService.js line 103):
`filename.toLowerCase().endsWith('.json')`. -/
def isJsonFile (filename : String) : Bool :=
  List.isSuffixOf (".json".data) ((jsToLower filename).data)

/-- Quote characters handled by the regex character class `['"]`. -/
def isQuote (c : Char) : Bool :=
  c == '"' || c == '\''

/-- Character-list core of `newContent.trim().replace(/^['"]|['"]$/g, '')`:
the regex (with the `g` flag) deletes one leading quote character and one
trailing quote character, each at most once. -/
def stripQuotesList (cs : List Char) : List Char :=
  let afterLead :=
    match cs with
    | c :: rest => if isQuote c then rest else cs
    | [] => []
  match afterLead.reverse with
  | c :: rest => if isQuote c then rest.reverse else afterLead
  | [] => afterLead

/-- Embedding of the quote-stripping step of `appendToJsonFile`
(fsService.js line 291), applied after `String.prototype.trim`. -/
def stripQuotes (s : String) : String :=
  String.mk (stripQuotesList s.data)

/-- Embedding of Node's `path.posix.basename`: drop trailing separators, then
keep the part after the last separator.  `basename "../secret.txt" = "secret.txt"`,
`basename ".." = ".."`. -/
def basename (p : String) : String :=
  let noTrail := ((p.data.reverse.dropWhile (· == '/')).reverse)
  String.mk ((noTrail.reverse.takeWhile (· != '/')).reverse)

/-! ### Path resolution

`path.join(FILES_DIR, cleanFilename)` normalizes the joined path; since
`cleanFilename` contains no separator, joining appends a single segment and
normalization only has to interpret `""`, `"."` and `".."`.  The base directory
is an absolute, already-normalized segment list. -/

/-- Effect of `path.join(base, seg)` on the segment list of an absolute
normalized base path, for a single separator-free segment `seg`. -/
def normJoin (base : List String) (seg : String) : List String :=
  if seg = "" ∨ seg = "." then base
  else if seg = ".." then base.dropLast
  else base ++ [seg]

/-- The path every file-store operation accesses for a caller-supplied
`filename`: `path.join(FILES_DIR, path.basename(filename))`. -/
def resolvePath (base : List String) (filename : String) : List String :=
  normJoin base (basename filename)

/-- `p` lies strictly inside the directory `base`. -/
def insideBase (base p : List String) : Bool :=
  base.isPrefixOf p && decide (base.length < p.length)

/-! ### The file store

The directory `FILES_DIR` is modeled as an association list from clean file
names to their string contents. -/

abbrev FileStore := List (String × String)

def fsGet (fs : FileStore) (n : String) : Option String :=
  (fs.find? (fun p => p.1 == n)).map (·.2)

def fsSet (fs : FileStore) (n c : String) : FileStore :=
  (n, c) :: fs.filter (fun p => !(p.1 == n))

def fsErase (fs : FileStore) (n : String) : FileStore :=
  fs.filter (fun p => !(p.1 == n))

/-! ### Errors thrown by fsService.js

The service throws `Error` objects; the routes classify them by substrings of
the message (`'already exists'`, `'required'`, `'not found'`).  We record the
error kinds as an inductive; each constructor corresponds to one fixed message
format of the source, so substring classification agrees with matching on the
constructor. -/

inductive FsError where
  | required : FsError
  | alreadyExists (name : String) : FsError
  | notFound (name : String) : FsError
  | invalidJsonFormat (name : String) : FsError
  | invalidJsonContent (payload : String) : FsError
  deriving DecidableEq

deriving instance DecidableEq for Except

structure CreateResult where
  filename : String
  size : Nat
  deriving DecidableEq

structure ReadResult where
  filename : String
  content : String
  size : Nat
  deriving DecidableEq

structure AppendResult where
  filename : String
  newSize : Nat
  arrayLength : Option Nat
  deriving DecidableEq

/-- Embedding of `createFile` (fsService.js lines 122-163).  JavaScript
falsiness of a string argument is emptiness.  `Buffer.byteLength(content,
'utf8')` is `String.utf8ByteSize`. -/
def createFile (fs : FileStore) (filename content : String) :
    Except FsError (CreateResult × FileStore) :=
  if filename = "" ∨ content = "" then .error .required
  else
    let cleanFilename := basename filename
    match fsGet fs cleanFilename with
    | some _ => .error (.alreadyExists cleanFilename)
    | none =>
        .ok ({ filename := cleanFilename, size := content.utf8ByteSize },
             fsSet fs cleanFilename content)

/-- Embedding of `readFile` (fsService.js lines 170-212). -/
def readFile (fs : FileStore) (filename : String) : Except FsError ReadResult :=
  if filename = "" then .error .required
  else
    let cleanFilename := basename filename
    match fsGet fs cleanFilename with
    | none => .error (.notFound cleanFilename)
    | some content =>
        .ok { filename := cleanFilename, content := content,
              size := content.utf8ByteSize }

/-- Embedding of `appendToJsonFile` (fsService.js lines 274-326).  `parse`
models the external `JSON.parse` (`none` when parsing throws) and `stringify`
models `JSON.stringify(-, null, 2)`.  The source re-reads the file at
`filePath`; the `notFound` branch is unreachable from `appendToFile`, which has
just checked existence. -/
def appendToJsonFile (parse : String → Option Json) (stringify : Json → String)
    (fs : FileStore) (filePath newContent cleanFilename : String) :
    Except FsError (AppendResult × FileStore) :=
  match fsGet fs filePath with
  | none => .error (.notFound cleanFilename)
  | some currentContent =>
      match parse currentContent with
      | none => .error (.invalidJsonFormat cleanFilename)
      | some currentData =>
          let cleanNewContent := stripQuotes (jsTrim newContent)
          match parse cleanNewContent with
          | none => .error (.invalidJsonContent newContent)
          | some newData =>
              let currentArray := ensureArray currentData
              let newArray := ensureArray newData
              let combinedArray := currentArray ++ newArray
              let updatedContent := stringify (Json.arr combinedArray)
              .ok ({ filename := cleanFilename,
                     newSize := updatedContent.utf8ByteSize,
                     arrayLength := some combinedArray.length },
                   fsSet fs filePath updatedContent)

/-- Embedding of `appendToFile` (fsService.js lines 220-265).  In the model
the store key plays the role of the full path. -/
def appendToFile (parse : String → Option Json) (stringify : Json → String)
    (fs : FileStore) (filename content : String) :
    Except FsError (AppendResult × FileStore) :=
  if filename = "" ∨ content = "" then .error .required
  else
    let cleanFilename := basename filename
    match fsGet fs cleanFilename with
    | none => .error (.notFound cleanFilename)
    | some current =>
        if isJsonFile cleanFilename then
          appendToJsonFile parse stringify fs cleanFilename content cleanFilename
        else
          let updated := current ++ content
          .ok ({ filename := cleanFilename, newSize := updated.utf8ByteSize,
                 arrayLength := none },
               fsSet fs cleanFilename updated)

/-- Embedding of `deleteFile` (fsService.js lines 333-369). -/
def deleteFile (fs : FileStore) (filename : String) :
    Except FsError (String × FileStore) :=
  if filename = "" then .error .required
  else
    let cleanFilename := basename filename
    match fsGet fs cleanFilename with
    | none => .error (.notFound cleanFilename)
    | some _ => .ok (cleanFilename, fsErase fs cleanFilename)

/-! ### The file routes

`router.post('/create')` classifies thrown errors by message substrings:
`includes('already exists')` gives 409, otherwise `includes('required')` gives
400, otherwise 500.  With the fixed message formats of `FsError` this is
matching on the constructor. -/

def createErrorStatus : FsError → Nat
  | .alreadyExists _ => 409
  | .required => 400
  | _ => 500

/-- Embedding of the `POST /api/fs/create` handler: the route first rejects a
missing/empty `filename` or `content` with 400, then calls `createFile` and
classifies errors.  Returns the HTTP status and the resulting store. -/
def createRoute (fs : FileStore) (filename content : String) : Nat × FileStore :=
  if filename = "" ∨ content = "" then (400, fs)
  else
    match createFile fs filename content with
    | .ok (_, fs2) => (201, fs2)
    | .error e => (createErrorStatus e, fs)

/-! ### User records

The MongoDB collection is a list of stored user documents.  The `_id` field is
called `uid`.  Stored documents carry the schema-transformed values: `name` and
`phone` trimmed, `email` trimmed and lowercased, `password` replaced by its
bcrypt hash (the hash is an explicit parameter, bcrypt being external). -/

structure UserInput where
  name : String
  email : String
  password : String
  phone : String
  age : Option Int

structure UserRec where
  uid : String
  name : String
  email : String
  password : String
  phone : String
  age : Option Int
  deriving DecidableEq

/-- Mongoose schema transform on `email`: `lowercase: true, trim: true`. -/
def normEmail (s : String) : String :=
  jsToLower (jsTrim s)

def isHexChar (c : Char) : Bool :=
  c.isDigit || ('a' ≤ c && c ≤ 'f') || ('A' ≤ c && c ≤ 'F')

/-- Embedding of `mongoose.Types.ObjectId.isValid` on strings: a 24-character
hex string, or any 12-character string (interpreted as 12 bytes). -/
def isValidObjectId (s : String) : Bool :=
  (s.length == 24 && s.data.all isHexChar) || s.length == 12

/-- Split a character list at a separator character. -/
def splitOnChar (sep : Char) : List Char → List (List Char)
  | [] => [[]]
  | c :: rest =>
      let r := splitOnChar sep rest
      if c == sep then [] :: r
      else
        match r with
        | h :: t => (c :: h) :: t
        | [] => [[c]]

/-- There is a `'.'` in the list that is not the last character. -/
def hasDotNotLast : List Char → Bool
  | [] => false
  | c :: rest => (c == '.' && !rest.isEmpty) || hasDotNotLast rest

/-- The list contains a `'.'` with at least one character before it and at
least one after it. -/
def hasInnerDot : List Char → Bool
  | [] => false
  | _ :: rest => hasDotNotLast rest

/-- Schema regex `/^[^\s@]+@[^\s@]+\.[^\s@]+$/` on the (already lowercased and
trimmed) email: no whitespace, exactly one `@` with a nonempty local part, and
the domain contains a dot with at least one character on each side. -/
def emailValid (s : String) : Bool :=
  match splitOnChar '@' s.data with
  | [locPart, domain] =>
      !locPart.isEmpty &&
      (locPart.all fun c => !c.isWhitespace) &&
      (domain.all fun c => !c.isWhitespace) &&
      hasInnerDot domain
  | _ => false

/-- Schema regex `/^\+?[1-9]\d{1,14}$/`: optional `+`, a leading digit `1`-`9`,
then one to fourteen further digits. -/
def phoneValid (s : String) : Bool :=
  let cs := match s.data with
    | '+' :: rest => rest
    | cs => cs
  match cs with
  | c :: rest =>
      ('1' ≤ c && c ≤ '9') && rest.all Char.isDigit &&
      1 ≤ rest.length && rest.length ≤ 14
  | [] => false

def ageValid : Option Int → Bool
  | none => true
  | some a => 1 ≤ a && a ≤ 120

/-- Mongoose schema validation run by `User.create`: required nonempty `name`
(trimmed, min length 2), valid `email`, `password` of length at least 8, valid
`phone`, optional `age` in 1..120. -/
def userSchemaValid (d : UserInput) : Bool :=
  (jsTrim d.name).length ≥ 2 && emailValid (normEmail d.email) &&
  d.password.length ≥ 8 && phoneValid (jsTrim d.phone) && ageValid d.age

/-- Error value thrown by the user service; the controller inspects `code`
(Mongo duplicate-key errors carry `code === 11000`) while the service's
explicit duplicate pre-check sets `statusCode` instead. -/
structure SvcError where
  message : String
  statusCode : Option Nat
  code : Option Nat
  deriving DecidableEq

/-- Embedding of `createUserService` (user service, pre-check variant, lines
117-129 of the concatenated model/service file): `User.findOne({email})` with
the raw request email, then `User.create` which lowercases the email, runs the
schema validations, hashes the password and inserts; the unique index on the
lowercased email raises a Mongo duplicate-key error (`code` 11000). -/
def createUserService (hash : String → String) (users : List UserRec)
    (nextId : String) (d : UserInput) : Except SvcError (UserRec × List UserRec) :=
  if users.any (fun u => u.email == d.email) then
    .error { message := "A user with this email address already exists.",
             statusCode := some 409, code := none }
  else
    let email := normEmail d.email
    if !userSchemaValid d then
      .error { message := "User validation failed", statusCode := none,
               code := none }
    else if users.any (fun u => u.email == email) then
      .error { message := "duplicate key error", statusCode := none,
               code := some 11000 }
    else
      let u : UserRec :=
        { uid := nextId, name := jsTrim d.name, email := email,
          password := hash d.password, phone := jsTrim d.phone, age := d.age }
      .ok (u, users ++ [u])

/-- Serialization of a stored user document as returned by the API: mongoose
documents are JSON-serialized with every schema field present, including the
hashed `password` (timestamps are not modeled). -/
def userToFields (u : UserRec) : List (String × String) :=
  [("_id", u.uid), ("name", u.name), ("email", u.email),
   ("password", u.password), ("phone", u.phone)] ++
  (match u.age with
   | some a => [("age", toString a)]
   | none => [])

structure CreateUserResp where
  status : Nat
  data : Option (List (String × String))
  deriving DecidableEq

/-- Embedding of the `createUser` controller (user.controller.js lines 10-22):
on success respond 201 with the new document; on error respond with status
`error.code === 11000 ? 409 : 400`. -/
def createUser (hash : String → String) (users : List UserRec)
    (nextId : String) (d : UserInput) : CreateUserResp × List UserRec :=
  match createUserService hash users nextId d with
  | .ok (u, users2) => ({ status := 201, data := some (userToFields u) }, users2)
  | .error e =>
      ({ status := if e.code == some 11000 then 409 else 400, data := none },
       users)

/-- Embedding of the `getAllUsers` controller with `getUsersService`
(`User.find({})`): respond 200 with every stored document. -/
def getAllUsers (users : List UserRec) : Nat × List (List (String × String)) :=
  (200, users.map userToFields)

/-! ### The `/:id` middleware and routes -/

/-- Outcome of the `checkUserExists` middleware: either an error response was
sent, or the found user was attached to `req.user`.  `storageCalls` counts the
database lookups performed before the outcome. -/
inductive MwOutcome where
  | rejected (status : Nat) (storageCalls : Nat) : MwOutcome
  | passed (user : UserRec) (storageCalls : Nat) : MwOutcome
  deriving DecidableEq

/-- Embedding of `checkUserExists` (user.middleware.mjs lines 10-36): an
invalid ObjectId is rejected with 400 before any database access; otherwise
`getUserByIdService` is called, which throws `'User not found'` for a missing
id — the middleware's `catch` turns that throw into a 500 response (its own
404 branch is unreachable, since the service throws instead of returning
null). -/
def checkUserExists (users : List UserRec) (id : String) : MwOutcome :=
  if !isValidObjectId id then .rejected 400 0
  else
    match users.find? (fun u => u.uid == id) with
    | none => .rejected 500 1
    | some u => .passed u 1

/-- Update request body (`PUT /api/users/:id`); absent fields are `none`.  An
empty body has every field absent. -/
structure UpdateBody where
  name : Option String := none
  email : Option String := none
  phone : Option String := none
  age : Option Int := none
  deriving DecidableEq

/-- Document produced by `findByIdAndUpdate`: present fields replace the stored
ones (with the schema transforms applied). -/
def applyUpdates (u : UserRec) (b : UpdateBody) : UserRec :=
  { u with
    name := (b.name.map jsTrim).getD u.name,
    email := (b.email.map normEmail).getD u.email,
    phone := (b.phone.map jsTrim).getD u.phone,
    age := match b.age with
      | some a => some a
      | none => u.age }

/-- `runValidators: true` validates only the updated paths. -/
def updateFieldsValid (b : UpdateBody) : Bool :=
  (match b.name with
   | some n => (jsTrim n).length ≥ 2
   | none => true) &&
  (match b.email with
   | some e => emailValid (normEmail e)
   | none => true) &&
  (match b.phone with
   | some p => phoneValid (jsTrim p)
   | none => true) &&
  (match b.age with
   | some a => 1 ≤ a && a ≤ 120
   | none => true)

/-- Embedding of `updateUserService`: `findByIdAndUpdate(id, updates,
{ new: true, runValidators: true })`, throwing `'User not found'` when the id
does not resolve. -/
def updateUserService (users : List UserRec) (id : String) (b : UpdateBody) :
    Except String (UserRec × List UserRec) :=
  match users.find? (fun u => u.uid == id) with
  | none => .error "User not found"
  | some u =>
      if updateFieldsValid b then
        let u2 := applyUpdates u b
        .ok (u2, users.map (fun v => if v.uid == id then u2 else v))
      else .error "ValidationError"

/-- Embedding of `deleteUserService`: `findByIdAndDelete(id)`. -/
def deleteUserService (users : List UserRec) (id : String) :
    Except String (List UserRec) :=
  match users.find? (fun u => u.uid == id) with
  | none => .error "User not found"
  | some _ => .ok (users.filter (fun v => !(v.uid == id)))

/-- `GET /api/users/:id`: `checkUserExists` then the `getUserById` controller,
which responds 200 with `req.user`. -/
def getByIdRoute (users : List UserRec) (id : String) : Nat × List UserRec :=
  match checkUserExists users id with
  | .rejected st _ => (st, users)
  | .passed _ _ => (200, users)

/-- `PUT /api/users/:id`: `checkUserExists` then the `updateUser` controller.
No validation middleware is mounted on this route; `validateUpdateUser`
(validation.middleware.js) is exported but never used.  Controller errors are
answered with 400. -/
def updateRoute (users : List UserRec) (id : String) (b : UpdateBody) :
    Nat × List UserRec :=
  match checkUserExists users id with
  | .rejected st _ => (st, users)
  | .passed _ _ =>
      match updateUserService users id b with
      | .ok (_, users2) => (200, users2)
      | .error _ => (400, users)

/-- `DELETE /api/users/:id`: `checkUserExists` then the `deleteUser`
controller; controller errors are answered with 500. -/
def deleteRoute (users : List UserRec) (id : String) : Nat × List UserRec :=
  match checkUserExists users id with
  | .rejected st _ => (st, users)
  | .passed _ _ =>
      match deleteUserService users id with
      | .ok users2 => (200, users2)
      | .error _ => (500, users)

/-! ### The unused Joi update schema

`updateUserSchema` (validation.middleware.js lines 14-19) with `.min(1)`: every
present field must satisfy its constraint and at least one recognized field
must be present.  `validate(updateUserSchema)` rejects with 400 when this
check fails; the check is modeled here because the user routes never mount
it. -/

def updateBodyFieldCount (b : UpdateBody) : Nat :=
  (if b.name.isSome then 1 else 0) + (if b.email.isSome then 1 else 0) +
  (if b.phone.isSome then 1 else 0) + (if b.age.isSome then 1 else 0)

def validateUpdateUserCheck (b : UpdateBody) : Bool :=
  updateBodyFieldCount b ≥ 1 &&
  (match b.name with
   | some n => n.length ≥ 2
   | none => true) &&
  (match b.email with
   | some e => emailValid e
   | none => true) &&
  (match b.phone with
   | some p => phoneValid p
   | none => true) &&
  (match b.age with
   | some a => 1 ≤ a && a ≤ 120
   | none => true)

/-! ### Helper lemmas -/

theorem fsGet_fsSet_self (fs : FileStore) (n c : String) :
    fsGet (fsSet fs n c) n = some c := by
  simp [fsGet, fsSet, List.find?]

theorem isPrefixOf_append_self (l t : List String) :
    l.isPrefixOf (l ++ t) = true := by
  induction l with
  | nil => simp [List.isPrefixOf]
  | cons a l ih => simp [List.isPrefixOf, ih]

theorem stripQuotesList_wrap (q1 q2 : Char) (cs : List Char)
    (h1 : isQuote q1 = true) (h2 : isQuote q2 = true) :
    stripQuotesList (q1 :: (cs ++ [q2])) = cs := by
  simp [stripQuotesList, h1, h2]

/-! ### Concrete fixtures used by closed theorems -/

/-- A stored user document (email already lowercased, password hashed). -/
def aliceStored : UserRec :=
  { uid := "aaaaaaaaaaaaaaaaaaaaaaaa", name := "Alice",
    email := "alice@example.com", password := "hashedpw",
    phone := "12345678", age := none }

/-- A create request carrying the same email as `aliceStored`. -/
def dupInput : UserInput :=
  { name := "Bob", email := "alice@example.com", password := "password1",
    phone := "+19876543", age := none }

/-- A well-formed create request against an empty collection. -/
def freshInput : UserInput :=
  { name := "Alice", email := "alice@example.com", password := "secret123",
    phone := "+12345678", age := none }

/-- The document `createUserService (fun s => s ++ "#h")` stores for
`freshInput` under id `"cccccccccccccccccccccccc"`. -/
def freshStored : UserRec :=
  { uid := "cccccccccccccccccccccccc", name := "Alice",
    email := "alice@example.com", password := "secret123#h",
    phone := "+12345678", age := none }

/-- Toy instantiation of `JSON.parse` for the C1 witness. -/
def parseC1 : String → Option Json := fun s =>
  if s = "[1,2]" then some (Json.arr [Json.num 1, Json.num 2])
  else if s = "3" then some (Json.num 3)
  else none

/-- Toy instantiation of `JSON.stringify(-, null, 2)` for the C1 witness. -/
def stringifyC1 : Json → String := fun v =>
  match v with
  | Json.arr [Json.num 1, Json.num 2, Json.num 3] => "[\n  1,\n  2,\n  3\n]"
  | _ => "unused"

/-! ### Claims -/

/-- Claim C1: for every append to a `.json` file (case-insensitive) whose
existing content parses as JSON and whose trimmed, quote-stripped payload
parses as JSON, the file is overwritten with the serialization of the array
obtained by coercing each parsed value to an array (`ensureArray`) and
concatenating existing-array followed by new-array, and the reported
`arrayLength` is the combined array's length. -/
theorem c1_json_append_merge
    (parse : String → Option Json) (stringify : Json → String)
    (fs : FileStore) (filename content old : String) (cur new : Json)
    (hjson : isJsonFile (basename filename) = true)
    (hc : content ≠ "")
    (hold : fsGet fs (basename filename) = some old)
    (hcur : parse old = some cur)
    (hnew : parse (stripQuotes (jsTrim content)) = some new) :
    appendToFile parse stringify fs filename content =
      .ok ({ filename := basename filename,
             newSize := (stringify
               (Json.arr (ensureArray cur ++ ensureArray new))).utf8ByteSize,
             arrayLength := some (ensureArray cur ++ ensureArray new).length },
           fsSet fs (basename filename)
             (stringify (Json.arr (ensureArray cur ++ ensureArray new)))) := by
  have hf : filename ≠ "" := by
    intro h
    rw [h] at hjson
    exact absurd hjson (by decide)
  simp [appendToFile, appendToJsonFile, hf, hc, hold, hjson, hcur, hnew]

/-- Witness for C1 at the spec's example: existing content `[1,2]`, payload
the five-character string `"3"` (quotes included); the file becomes the
pretty-printed `[1,2,3]` and the reported array length is 3. -/
theorem c1_json_append_merge_witness :
    isJsonFile (basename "data.json") = true ∧
    fsGet [("data.json", "[1,2]")] (basename "data.json") = some "[1,2]" ∧
    parseC1 "[1,2]" = some (Json.arr [Json.num 1, Json.num 2]) ∧
    parseC1 (stripQuotes (jsTrim "\"3\"")) = some (Json.num 3) ∧
    appendToFile parseC1 stringifyC1 [("data.json", "[1,2]")] "data.json"
        "\"3\"" =
      .ok ({ filename := "data.json", newSize := 17, arrayLength := some 3 },
           [("data.json", "[\n  1,\n  2,\n  3\n]")]) := by
  refine ⟨by decide, by rfl, by rfl, by rfl, ?_⟩
  have h := c1_json_append_merge parseC1 stringifyC1 [("data.json", "[1,2]")]
    "data.json" "\"3\"" "[1,2]" (Json.arr [Json.num 1, Json.num 2]) (Json.num 3)
    (by decide) (by decide) (by rfl) (by rfl) (by rfl)
  exact h.trans (by decide)

/-- Claim C2 counterexample: sanitization does take the final path segment
(`basename "../secret.txt" = "secret.txt"`), but the final segment `".."` is
preserved, so the filename `".."` resolves to the parent of the base
directory — outside it.  This refutes "the resolved path is always inside the
fixed base directory". -/
theorem c2_sanitizer_counterexample :
    basename "../secret.txt" = "secret.txt" ∧
    basename ".." = ".." ∧
    resolvePath ["srv", "files"] ".." = ["srv"] ∧
    insideBase ["srv", "files"] (resolvePath ["srv", "files"] "..") = false := by
  exact ⟨by decide, by decide, by decide, by decide⟩

/-- Claim C2 as amended: every file-store operation reduces the filename to
its final path segment before touching storage, and whenever that final
segment is not `""`, `"."` or `".."`, the resolved path
`path.join(base, basename filename)` is `base ++ [basename filename]`, which
lies strictly inside the base directory.  (For the segments `"."` and `".."`
the resolved path escapes the base, as the counterexample shows.) -/
theorem c2_sanitized_resolution_inside_base
    (base : List String) (filename : String)
    (h0 : basename filename ≠ "") (h1 : basename filename ≠ ".")
    (h2 : basename filename ≠ "..") :
    resolvePath base filename = base ++ [basename filename] ∧
    insideBase base (resolvePath base filename) = true := by
  have hres : resolvePath base filename = base ++ [basename filename] := by
    unfold resolvePath normJoin
    rw [if_neg (by tauto), if_neg h2]
  refine ⟨hres, ?_⟩
  rw [hres]
  simp [insideBase, isPrefixOf_append_self]

/-- Witness for the amended C2 at the spec's example `"../secret.txt"`. -/
theorem c2_sanitized_resolution_inside_base_witness :
    resolvePath ["srv", "files"] "../secret.txt" =
      ["srv", "files", "secret.txt"] ∧
    insideBase ["srv", "files"]
      (resolvePath ["srv", "files"] "../secret.txt") = true := by
  have h := c2_sanitized_resolution_inside_base ["srv", "files"]
    "../secret.txt" (by decide) (by decide) (by decide)
  exact ⟨h.1.trans (by decide), h.2⟩

/-- Claim C3: appending to an existing non-`.json` file and then reading it
yields exactly the old content concatenated with the appended content. -/
theorem c3_nonjson_append_is_byte_concat
    (parse : String → Option Json) (stringify : Json → String)
    (fs : FileStore) (filename content old : String)
    (hf : filename ≠ "") (hc : content ≠ "")
    (hjson : isJsonFile (basename filename) = false)
    (hold : fsGet fs (basename filename) = some old) :
    appendToFile parse stringify fs filename content =
      .ok ({ filename := basename filename,
             newSize := (old ++ content).utf8ByteSize, arrayLength := none },
           fsSet fs (basename filename) (old ++ content)) ∧
    readFile (fsSet fs (basename filename) (old ++ content)) filename =
      .ok { filename := basename filename, content := old ++ content,
            size := (old ++ content).utf8ByteSize } := by
  constructor
  · simp [appendToFile, hf, hc, hold, hjson]
  · simp [readFile, hf, fsGet_fsSet_self]

/-- Witness for C3: `"hi"` in `notes.txt`, append `" there"`, read back
`"hi there"`. -/
theorem c3_nonjson_append_is_byte_concat_witness :
    appendToFile parseC1 stringifyC1 [("notes.txt", "hi")] "notes.txt"
        " there" =
      .ok ({ filename := "notes.txt", newSize := 8, arrayLength := none },
           [("notes.txt", "hi there")]) ∧
    readFile [("notes.txt", "hi there")] "notes.txt" =
      .ok { filename := "notes.txt", content := "hi there", size := 8 } := by
  have h := c3_nonjson_append_is_byte_concat parseC1 stringifyC1
    [("notes.txt", "hi")] "notes.txt" " there" "hi"
    (by decide) (by decide) (by decide) (by rfl)
  refine ⟨h.1.trans (by decide), ?_⟩
  have h2 := h.2
  rw [show fsSet [("notes.txt", "hi")] (basename "notes.txt")
        ("hi" ++ " there") = [("notes.txt", "hi there")] from by decide] at h2
  exact h2.trans (by decide)

/-- Claim C4 at its failing input (the code contradicts the service's own
`statusCode = 409 // Conflict` annotation): with `aliceStored` already in the
collection, creating a user with the same email makes `createUserService`
throw the conflict error carrying `statusCode 409`, but the `createUser`
controller only maps `error.code === 11000` to 409, so the HTTP response is
400 — not the claimed 409 Conflict.  No record is added: the collection is
unchanged. -/
theorem c4_duplicate_email_responds_400 :
    createUserService (fun s => s ++ "#h") [aliceStored]
        "bbbbbbbbbbbbbbbbbbbbbbbb" dupInput =
      .error { message := "A user with this email address already exists.",
               statusCode := some 409, code := none } ∧
    createUser (fun s => s ++ "#h") [aliceStored] "bbbbbbbbbbbbbbbbbbbbbbbb"
        dupInput =
      ({ status := 400, data := none }, [aliceStored]) ∧
    (400 : Nat) ≠ 409 := by
  exact ⟨by decide, by decide, by decide⟩

/-- Claim C5 at its failing input (no validation middleware is mounted on the
user routes, although `validateUpdateUser` with `.min(1)` exists): a `PUT`
with an empty body on an existing user passes `checkUserExists` and
`updateUserService` and is answered 200 with the record unchanged, while the
unmounted Joi schema would have rejected the same body. -/
theorem c5_empty_update_body_responds_200 :
    updateRoute [aliceStored] "aaaaaaaaaaaaaaaaaaaaaaaa" {} =
      (200, [aliceStored]) ∧
    validateUpdateUserCheck {} = false := by
  exact ⟨by decide, by decide⟩

/-- Claim C6 counterexample: a successful create responds with the stored
document, whose serialization contains a `password` field — the password is
not write-only from the API's perspective. -/
theorem c6_password_counterexample :
    ((createUser (fun s => s ++ "#h") [] "cccccccccccccccccccccccc"
        freshInput).1.data.getD []).any (fun p => p.1 == "password") = true := by
  decide

/-- Claim C6 as amended: user responses return the stored document including
the `password` field, which holds the hash of the submitted password (the
plaintext itself is never stored); no redaction happens in the create or list
responses. -/
theorem c6_password_returned_in_responses
    (hash : String → String) (users users2 : List UserRec) (nextId : String)
    (d : UserInput) (u : UserRec)
    (hok : createUserService hash users nextId d = .ok (u, users2)) :
    createUser hash users nextId d =
      ({ status := 201, data := some (userToFields u) }, users2) ∧
    ("password", u.password) ∈ userToFields u ∧
    u.password = hash d.password ∧
    (getAllUsers users2).2 = users2.map userToFields := by
  refine ⟨by simp [createUser, hok], by simp [userToFields], ?_, rfl⟩
  simp only [createUserService] at hok
  split at hok
  · simp at hok
  · split at hok
    · simp at hok
    · split at hok
      · simp at hok
      · simp only [Except.ok.injEq, Prod.mk.injEq] at hok
        rw [← hok.1]

/-- Witness for the amended C6: a concrete successful create whose response
data carries `("password", "secret123#h")`. -/
theorem c6_password_returned_witness :
    createUser (fun s => s ++ "#h") [] "cccccccccccccccccccccccc" freshInput =
      ({ status := 201, data := some (userToFields freshStored) },
       [freshStored]) ∧
    ("password", freshStored.password) ∈ userToFields freshStored ∧
    freshStored.password = (fun s : String => s ++ "#h") freshInput.password ∧
    (getAllUsers [freshStored]).2 = [freshStored].map userToFields := by
  exact c6_password_returned_in_responses (fun s => s ++ "#h") [] [freshStored]
    "cccccccccccccccccccccccc" freshInput freshStored (by decide)

/-- Claim C7: for a valid filename (nonempty, with a nonempty final segment)
that does not already resolve to an existing file, and nonempty content,
create followed by read returns exactly the bytes passed to create. -/
theorem c7_create_read_roundtrip
    (fs : FileStore) (filename content : String)
    (hf : filename ≠ "") (_hb : basename filename ≠ "") (hc : content ≠ "")
    (hfresh : fsGet fs (basename filename) = none) :
    createFile fs filename content =
      .ok ({ filename := basename filename, size := content.utf8ByteSize },
           fsSet fs (basename filename) content) ∧
    readFile (fsSet fs (basename filename) content) filename =
      .ok { filename := basename filename, content := content,
            size := content.utf8ByteSize } := by
  constructor
  · simp [createFile, hf, hc, hfresh]
  · simp [readFile, hf, fsGet_fsSet_self]

/-- Witness for C7 on an empty store. -/
theorem c7_create_read_roundtrip_witness :
    createFile [] "hello.txt" "Hello World!" =
      .ok ({ filename := "hello.txt", size := 12 },
           [("hello.txt", "Hello World!")]) ∧
    readFile [("hello.txt", "Hello World!")] "hello.txt" =
      .ok { filename := "hello.txt", content := "Hello World!",
            size := 12 } := by
  have h := c7_create_read_roundtrip [] "hello.txt" "Hello World!"
    (by decide) (by decide) (by decide) rfl
  refine ⟨h.1.trans (by decide), ?_⟩
  have h2 := h.2
  rw [show fsSet [] (basename "hello.txt") "Hello World!" =
        [("hello.txt", "Hello World!")] from by decide] at h2
  exact h2.trans (by decide)

/-- Claim C8 counterexample: create on an existing filename does not *always*
fail with Conflict/409 — with empty content the required-fields check fires
first and the route answers 400 (`InvalidInput`), not 409.  The stored
content is still unchanged. -/
theorem c8_create_existing_counterexample :
    fsGet [("a.txt", "hi")] (basename "a.txt") = some "hi" ∧
    createRoute [("a.txt", "hi")] "a.txt" "" = (400, [("a.txt", "hi")]) ∧
    createFile [("a.txt", "hi")] "a.txt" "" = .error .required ∧
    (400 : Nat) ≠ 409 := by
  exact ⟨by rfl, by decide, by decide, by decide⟩

/-- Claim C8 as amended: for every create call with nonempty filename and
nonempty content on a filename whose resolved name already exists, the
service fails with `AlreadyExists`, the route answers 409 Conflict, and the
store (hence the existing file's content) is unchanged. -/
theorem c8_create_existing_conflict
    (fs : FileStore) (filename content old : String)
    (hf : filename ≠ "") (hc : content ≠ "")
    (hold : fsGet fs (basename filename) = some old) :
    createFile fs filename content =
      .error (.alreadyExists (basename filename)) ∧
    createRoute fs filename content = (409, fs) := by
  have h1 : createFile fs filename content =
      .error (.alreadyExists (basename filename)) := by
    simp [createFile, hf, hc, hold]
  refine ⟨h1, ?_⟩
  simp [createRoute, hf, hc, h1, createErrorStatus]

/-- Witness for the amended C8. -/
theorem c8_create_existing_conflict_witness :
    createFile [("a.txt", "hi")] "a.txt" "more" =
      .error (.alreadyExists (basename "a.txt")) ∧
    createRoute [("a.txt", "hi")] "a.txt" "more" = (409, [("a.txt", "hi")]) :=
  c8_create_existing_conflict [("a.txt", "hi")] "a.txt" "more" "hi"
    (by decide) (by decide) (by rfl)

/-- Claim C9: a malformed ObjectId is rejected by `checkUserExists` with 400
before any storage lookup (`storageCalls = 0`), and since the same middleware
gates `GET`, `PUT` and `DELETE` on `/:id`, all three routes answer 400 with
the collection untouched. -/
theorem c9_invalid_id_rejected_before_storage
    (users : List UserRec) (id : String) (b : UpdateBody)
    (hid : isValidObjectId id = false) :
    checkUserExists users id = .rejected 400 0 ∧
    getByIdRoute users id = (400, users) ∧
    updateRoute users id b = (400, users) ∧
    deleteRoute users id = (400, users) := by
  have h : checkUserExists users id = .rejected 400 0 := by
    simp [checkUserExists, hid]
  exact ⟨h, by simp [getByIdRoute, h], by simp [updateRoute, h],
         by simp [deleteRoute, h]⟩

/-- Witness for C9 at the malformed id `"abc"`. -/
theorem c9_invalid_id_rejected_witness :
    checkUserExists [aliceStored] "abc" = .rejected 400 0 ∧
    getByIdRoute [aliceStored] "abc" = (400, [aliceStored]) ∧
    updateRoute [aliceStored] "abc" {} = (400, [aliceStored]) ∧
    deleteRoute [aliceStored] "abc" = (400, [aliceStored]) :=
  c9_invalid_id_rejected_before_storage [aliceStored] "abc" {} (by decide)

/-- Claim C10 counterexample: a JSON append whose payload is the quoted
literal `"hello"` does not *always* fail with `InvalidContent` — when the
existing file content does not parse as JSON, the failure is
`InvalidFormat` instead. -/
theorem c10_quoted_payload_counterexample :
    appendToJsonFile (fun _ => none) (fun _ => "x") [("data.json", "oops")]
        "data.json" "\"hello\"" "data.json" =
      .error (.invalidJsonFormat "data.json") := by
  decide

/-- Claim C10 as amended: for a JSON append whose existing content parses as
JSON and whose trimmed payload is a quote-wrapped literal (double or single
quotes) with inner text `s` that is not valid JSON, the append fails with
`InvalidContent`: the quote-stripping removes exactly the one leading and one
trailing quote character, so the parse attempt sees `s` and fails. -/
theorem c10_quoted_string_payload_invalid_content
    (parse : String → Option Json) (stringify : Json → String)
    (fs : FileStore) (filePath newContent cleanFilename old s : String)
    (q1 q2 : Char) (cur : Json)
    (hold : fsGet fs filePath = some old)
    (hcur : parse old = some cur)
    (h1 : isQuote q1 = true) (h2 : isQuote q2 = true)
    (htrim : (jsTrim newContent).data = q1 :: (s.data ++ [q2]))
    (hs : parse s = none) :
    appendToJsonFile parse stringify fs filePath newContent cleanFilename =
      .error (.invalidJsonContent newContent) := by
  have hstrip : stripQuotes (jsTrim newContent) = s := by
    unfold stripQuotes
    rw [htrim, stripQuotesList_wrap q1 q2 s.data h1 h2]
  simp [appendToJsonFile, hold, hcur, hstrip, hs]

/-- Toy instantiation of `JSON.parse` for the C10 witness. -/
def parseC10 : String → Option Json := fun t =>
  if t = "[]" then some (Json.arr []) else none

/-- Witness for the amended C10: appending the quoted literal `"hello"` to a
file containing `[]` fails with `InvalidContent`. -/
theorem c10_quoted_string_payload_witness :
    appendToJsonFile parseC10 (fun _ => "x") [("data.json", "[]")] "data.json"
        "\"hello\"" "data.json" =
      .error (.invalidJsonContent "\"hello\"") := by
  exact c10_quoted_string_payload_invalid_content parseC10 (fun _ => "x")
    [("data.json", "[]")] "data.json" "\"hello\"" "data.json" "[]" "hello"
    '"' '"' (Json.arr []) rfl rfl (by decide) (by decide) (by decide) rfl
